import Mathlib

/-!
Verification development for the response-normalization pipeline of the
language-learning backend.

The Python sources are shallowly embedded as Lean functions:
  - Python `str` becomes `String` / `List Char`, with Python string
    primitives (`strip`, `lower`, `in`, `replace`, slicing, `split`,
    `find`/`rfind`, `startswith`, `endswith`) modelled explicitly below;
  - Python dict payloads become structures with `Option` fields
    (a missing or `None` entry is `none`);
  - `random.choice` / `random.shuffle` become explicit parameters
    (an index choice, and a shuffle function quantified over);
  - a raised exception becomes `none` / `Except.error`;
  - `json.loads` is abstracted as a parse parameter where only the
    control flow matters, and `miniJsonLoads` is a concrete executable
    model of it on the escape-free JSON fragment.

Machine integers do not occur (Python ints are unbounded); numeric
fields use `Nat`/`Int`, and float thresholds use `Rat` (exact for the
decimal literals compared in the source).
-/

namespace LangBackend

/-- Left brace character, written via its code point. -/
def lbrace : Char := Char.ofNat 123

/-- Right brace character, written via its code point. -/
def rbrace : Char := Char.ofNat 125

/-- Double-quote character. -/
def quoteChar : Char := Char.ofNat 34

/-- Backtick character. -/
def tickChar : Char := Char.ofNat 96

/-- Python `\s` whitespace class (`str.strip` default set, ASCII part). -/
def pyIsSpace (c : Char) : Bool :=
  c = ' ' || c = '\t' || c = '\n' || c = '\r' || c = Char.ofNat 11 || c = Char.ofNat 12

/-- Python `str.strip()` on a character list. -/
def stripList (l : List Char) : List Char :=
  ((l.dropWhile pyIsSpace).reverse.dropWhile pyIsSpace).reverse

/-- Python `str.strip()`. -/
def pyStrip (s : String) : String :=
  String.mk (stripList s.data)

/-- Python `str.lower()` (ASCII model). -/
def pyLower (s : String) : String :=
  String.mk (s.data.map Char.toLower)

/-- Substring test on character lists: `isSub n h` is Python `n in h`. -/
def isSub (n : List Char) : List Char → Bool
  | [] => n.isPrefixOf []
  | c :: t => n.isPrefixOf (c :: t) || isSub n t

/-- Python `needle in hay` for strings. -/
def pyInStr (needle hay : String) : Bool :=
  isSub needle.data hay.data

/-- Python `s.replace(old, new, 1)` on character lists (first occurrence only);
`old = []` inserts at the front, matching the Python empty-pattern replace. -/
def replaceFirstList (s old new : List Char) : List Char :=
  if old = [] then new ++ s
  else
    match s with
    | [] => []
    | c :: t =>
        if old.isPrefixOf (c :: t) then new ++ (c :: t).drop old.length
        else c :: replaceFirstList t old new

/-- Python `s.replace(old, new, 1)` for strings. -/
def pyReplaceFirst (s old new : String) : String :=
  String.mk (replaceFirstList s.data old.data new.data)

/-- Fuel-driven worker for Python `str.replace` (all occurrences). -/
def replaceAllAux (old new : List Char) : Nat → List Char → List Char
  | 0, l => l
  | _ + 1, [] => []
  | fuel + 1, c :: t =>
      if old ≠ [] && old.isPrefixOf (c :: t) then
        new ++ replaceAllAux old new fuel ((c :: t).drop old.length)
      else c :: replaceAllAux old new fuel t

/-- Python `s.replace(old, new)` for strings (all occurrences;
`old = ""` is not used by the embedded code paths). -/
def pyReplaceAll (s old new : String) : String :=
  String.mk (replaceAllAux old.data new.data s.data.length s.data)

/-- Python `s.split(chr(10))` on character lists. -/
def splitLinesList : List Char → List (List Char)
  | [] => [[]]
  | c :: t =>
      let r := splitLinesList t
      if c = '\n' then [] :: r
      else
        match r with
        | [] => [[c]]
        | h :: t2 => (c :: h) :: t2

/-- Python `str.endswith` for a single character, on a character list. -/
def endsWithChar (l : List Char) (c : Char) : Bool :=
  l.getLast? = some c

/-- JSON whitespace accepted by `json.loads`. -/
def jsonWs (c : Char) : Bool :=
  c = ' ' || c = '\t' || c = '\n' || c = '\r'

/-- JSON values, the result type of the modelled `json.loads`. -/
inductive J where
  | null : J
  | bool (b : Bool) : J
  | num (n : Int) : J
  | str (s : String) : J
  | arr (xs : List J) : J
  | obj (fields : List (String × J)) : J

/-- Body of a JSON string literal up to the closing quote (escape-free
fragment); returns the content and the remainder after the quote. -/
def parseStringBody : List Char → Option (List Char × List Char)
  | [] => none
  | c :: t =>
      if c = quoteChar then some ([], t)
      else
        match parseStringBody t with
        | some (s, r) => some (c :: s, r)
        | none => none

/-- Digit run converted to a natural number. -/
def digitsToNat (ds : List Char) : Nat :=
  ds.foldl (fun a c => a * 10 + (c.toNat - 48)) 0

/-- Integer literal at the head of the input (optional minus sign). -/
def parseIntLit (l : List Char) : Option (Int × List Char) :=
  match l with
  | '-' :: t =>
      let ds := t.takeWhile Char.isDigit
      if ds = [] then none
      else some (-(digitsToNat ds : Int), t.drop ds.length)
  | _ =>
      let ds := l.takeWhile Char.isDigit
      if ds = [] then none
      else some ((digitsToNat ds : Int), l.drop ds.length)

mutual

/-- JSON value parser (fuel-driven model of `json.loads` on the
escape-free fragment). -/
def parseJsonVal : Nat → List Char → Option (J × List Char)
  | 0, _ => none
  | fuel + 1, l0 =>
      let l := l0.dropWhile jsonWs
      match l with
      | [] => none
      | c :: t =>
          if c = quoteChar then
            match parseStringBody t with
            | some (s, r) => some (J.str (String.mk s), r)
            | none => none
          else if c = lbrace then parseJsonMembers fuel t true
          else if c = '[' then parseJsonElems fuel t true
          else if c = 'n' then
            if t.take 3 = ['u', 'l', 'l'] then some (J.null, t.drop 3) else none
          else if c = 't' then
            if t.take 3 = ['r', 'u', 'e'] then some (J.bool true, t.drop 3) else none
          else if c = 'f' then
            if t.take 4 = ['a', 'l', 's', 'e'] then some (J.bool false, t.drop 4) else none
          else
            match parseIntLit (c :: t) with
            | some (n, r) => some (J.num n, r)
            | none => none

/-- JSON array elements after the opening bracket. -/
def parseJsonElems : Nat → List Char → Bool → Option (J × List Char)
  | 0, _, _ => none
  | fuel + 1, l0, first =>
      let l := l0.dropWhile jsonWs
      match l with
      | [] => none
      | c :: t =>
          if c = ']' && first then some (J.arr [], t)
          else
            match parseJsonVal fuel l with
            | none => none
            | some (v, r) =>
                let r2 := r.dropWhile jsonWs
                match r2 with
                | ',' :: r3 =>
                    match parseJsonElems fuel r3 false with
                    | some (J.arr vs, r4) => some (J.arr (v :: vs), r4)
                    | _ => none
                | c2 :: r3 =>
                    if c2 = ']' then some (J.arr [v], r3) else none
                | [] => none

/-- JSON object members after the opening brace. -/
def parseJsonMembers : Nat → List Char → Bool → Option (J × List Char)
  | 0, _, _ => none
  | fuel + 1, l0, first =>
      let l := l0.dropWhile jsonWs
      match l with
      | [] => none
      | c :: t =>
          if c = rbrace && first then some (J.obj [], t)
          else if c = quoteChar then
            match parseStringBody t with
            | none => none
            | some (k, r) =>
                let r2 := r.dropWhile jsonWs
                match r2 with
                | ':' :: r3 =>
                    match parseJsonVal fuel r3 with
                    | none => none
                    | some (v, r4) =>
                        let r5 := r4.dropWhile jsonWs
                        match r5 with
                        | ',' :: r6 =>
                            match parseJsonMembers fuel r6 false with
                            | some (J.obj fs, r7) => some (J.obj ((String.mk k, v) :: fs), r7)
                            | _ => none
                        | c2 :: r6 =>
                            if c2 = rbrace then some (J.obj [(String.mk k, v)], r6) else none
                        | [] => none
                | _ => none
          else none

end

/-- Model of `json.loads`: parse one value and require only whitespace
after it. -/
def miniJsonLoads (s : String) : Option J :=
  match parseJsonVal (s.data.length + 1) s.data with
  | some (v, rest) => if rest.dropWhile jsonWs = [] then some v else none
  | none => none

/-! ### MLX response extractor (`MLXAIService._extract_json`) -/

/-- One pass removing chat-control tokens: the Python substitution whose
pattern is `<`, pipe, a non-pipe run, pipe, `>`, replaced by nothing
(fuel-driven scan, leftmost non-overlapping matches). -/
def removeChatTokens : Nat → List Char → List Char
  | 0, l => l
  | _ + 1, [] => []
  | fuel + 1, c :: t =>
      if c = '<' then
        match t with
        | p :: t2 =>
            if p = '|' then
              let run := t2.takeWhile (fun x => x ≠ '|')
              match t2.drop run.length with
              | _ :: g :: r3 =>
                  if g = '>' then removeChatTokens fuel r3
                  else c :: removeChatTokens fuel t
              | _ => c :: removeChatTokens fuel t
            else c :: removeChatTokens fuel t
        | [] => [c]
      else c :: removeChatTokens fuel t

/-- The Python substitution matching the word `assistant`, optional
whitespace, then an opening brace, replaced by just the opening brace. -/
def removeAssistantBrace : Nat → List Char → List Char
  | 0, l => l
  | _ + 1, [] => []
  | fuel + 1, c :: t =>
      if "assistant".data.isPrefixOf (c :: t) then
        let rest := (c :: t).drop 9
        let ws := rest.takeWhile pyIsSpace
        match rest.drop ws.length with
        | b :: r2 =>
            if b = lbrace then lbrace :: removeAssistantBrace fuel r2
            else c :: removeAssistantBrace fuel t
        | [] => c :: removeAssistantBrace fuel t
      else c :: removeAssistantBrace fuel t

/-- Remove a literal marker followed by optional whitespace (the Python
substitution deleting a fixed marker and the whitespace after it). -/
def removeMarkerWs (marker : List Char) : Nat → List Char → List Char
  | 0, l => l
  | _ + 1, [] => []
  | fuel + 1, c :: t =>
      if marker ≠ [] && marker.isPrefixOf (c :: t) then
        let rest := (c :: t).drop marker.length
        removeMarkerWs marker fuel (rest.dropWhile pyIsSpace)
      else c :: removeMarkerWs marker fuel t

/-- Markdown fence marker (three backticks). -/
def fenceMarker : List Char := [tickChar, tickChar, tickChar]

/-- Markdown JSON fence marker (three backticks then `json`). -/
def fenceJsonMarker : List Char := fenceMarker ++ ['j', 's', 'o', 'n']

/-- The cleanup prefix of `MLXAIService._extract_json`: strip chat tokens,
a stray `assistant` before a brace, and markdown fences, in source order. -/
def mlxClean (s : String) : String :=
  let l1 := removeChatTokens s.data.length s.data
  let l2 := removeAssistantBrace l1.length l1
  let l3 := removeMarkerWs fenceJsonMarker l2.length l2
  let l4 := removeMarkerWs fenceMarker l3.length l3
  String.mk l4

/-- Candidate balanced-brace spans of the scan in
`MLXAIService._extract_json`: walk the characters tracking nesting depth,
record the span each time the depth returns to zero with a recorded start. -/
def spansAux (cl : List Char) : Nat → Nat → Int → Option Nat → List (List Char)
  | 0, _, _, _ => []
  | fuel + 1, i, level, start =>
      match cl.get? i with
      | none => []
      | some ch =>
          if ch = lbrace then
            spansAux cl fuel (i + 1) (level + 1) (if level = 0 then some i else start)
          else if ch = rbrace then
            if level - 1 = 0 then
              match start with
              | some s => ((cl.drop s).take (i + 1 - s)) :: spansAux cl fuel (i + 1) (level - 1) start
              | none => spansAux cl fuel (i + 1) (level - 1) start
            else spansAux cl fuel (i + 1) (level - 1) start
          else spansAux cl fuel (i + 1) level start

/-- All balanced-brace candidate spans of the cleaned response. -/
def balancedSpans (s : String) : List String :=
  (spansAux s.data (s.data.length + 1) 0 0 none).map String.mk

/-- The extraction loop of `MLXAIService._extract_json`: same scan as
`spansAux`, but each candidate is parsed on the spot and the first parse
success is returned. -/
def extractAux {α : Type} (parse : String → Option α) (cl : List Char) :
    Nat → Nat → Int → Option Nat → Option α
  | 0, _, _, _ => none
  | fuel + 1, i, level, start =>
      match cl.get? i with
      | none => none
      | some ch =>
          if ch = lbrace then
            extractAux parse cl fuel (i + 1) (level + 1) (if level = 0 then some i else start)
          else if ch = rbrace then
            if level - 1 = 0 then
              match start with
              | some s =>
                  match parse (String.mk ((cl.drop s).take (i + 1 - s))) with
                  | some v => some v
                  | none => extractAux parse cl fuel (i + 1) (level - 1) start
              | none => extractAux parse cl fuel (i + 1) (level - 1) start
            else extractAux parse cl fuel (i + 1) (level - 1) start
          else extractAux parse cl fuel (i + 1) level start

/-- `MLXAIService._extract_json`, parameterized by the JSON parser;
`none` models the final raised `Exception` (no valid JSON object found). -/
def mlxExtractJson {α : Type} (parse : String → Option α) (response : String) : Option α :=
  let cleaned := mlxClean response
  extractAux parse cleaned.data (cleaned.data.length + 1) 0 0 none

/-! ### Groq structural repair (`GroqService._fix_json_syntax`) and the
Groq flashcard extraction slice -/

/-- Rule removing a comma before a closing bracket or brace
(Python `re.sub` with pattern comma, whitespace, closer, keeping group 1). -/
def subTrailingComma : Nat → List Char → List Char
  | 0, l => l
  | _ + 1, [] => []
  | fuel + 1, c :: t =>
      if c = ',' then
        let ws := t.takeWhile pyIsSpace
        match t.drop ws.length with
        | b :: r2 =>
            if b = rbrace || b = ']' then ws ++ b :: subTrailingComma fuel r2
            else c :: subTrailingComma fuel t
        | [] => c :: subTrailingComma fuel t
      else c :: subTrailingComma fuel t

/-- Rule inserting a comma between character `a`, optional whitespace, and
character `b` (the whitespace is dropped by the replacement, as in the
four comma-insertion substitutions of the source). -/
def subBetween (a b : Char) : Nat → List Char → List Char
  | 0, l => l
  | _ + 1, [] => []
  | fuel + 1, c :: t =>
      if c = a then
        let ws := t.takeWhile pyIsSpace
        match t.drop ws.length with
        | d :: r2 =>
            if d = b then a :: ',' :: b :: subBetween a b fuel r2
            else c :: subBetween a b fuel t
        | [] => c :: subBetween a b fuel t
      else c :: subBetween a b fuel t

/-- Rule inserting a comma between a closing quote and a following quoted
key (quote, whitespace, quote, key run, quote, colon). -/
def subQuoteKey : Nat → List Char → List Char
  | 0, l => l
  | _ + 1, [] => []
  | fuel + 1, c :: t =>
      if c = quoteChar then
        let ws := t.takeWhile pyIsSpace
        match t.drop ws.length with
        | q2 :: r2 =>
            if q2 = quoteChar then
              let key := r2.takeWhile (fun x => x ≠ quoteChar)
              match r2.drop key.length with
              | _ :: col :: r5 =>
                  if col = ':' then
                    quoteChar :: ',' :: quoteChar :: (key ++ quoteChar :: ':' :: subQuoteKey fuel r5)
                  else c :: subQuoteKey fuel t
              | _ => c :: subQuoteKey fuel t
            else c :: subQuoteKey fuel t
        | [] => c :: subQuoteKey fuel t
      else c :: subQuoteKey fuel t

/-- Drop orphaned quoted lines: the line-machine in the middle of
`_fix_json_syntax` (strip each line, drop empties, track object state, skip
quoted lines that are not key-value pairs). -/
def lineFixAux : List (List Char) → Bool → Bool → List (List Char)
  | [], _, _ => []
  | ln :: rest, inObj, inArr =>
      if ln = [] then lineFixAux rest inObj inArr
      else
        let inObj2 := if ln.contains rbrace then false else if ln.contains lbrace then true else inObj
        let inArr2 := if ln.contains ']' then false else if ln.contains '[' then true else inArr
        let skip := inObj2 && ln.contains quoteChar && !(ln.contains ':') &&
          !(endsWithChar ln ',') && !(endsWithChar ln lbrace) && !(endsWithChar ln rbrace)
        if skip then lineFixAux rest inObj2 inArr2
        else ln :: lineFixAux rest inObj2 inArr2

/-- The full line pass: split on newlines, strip, fold `lineFixAux`,
re-join with newlines. -/
def lineFix (l : List Char) : List Char :=
  List.intercalate ['\n'] (lineFixAux ((splitLinesList l).map stripList) false false)

/-- Rule inserting a comma between character `f` and a quote separated by
whitespace containing a newline (the final three cleanup substitutions). -/
def subNlQuote (f : Char) : Nat → List Char → List Char
  | 0, l => l
  | _ + 1, [] => []
  | fuel + 1, c :: t =>
      if c = f then
        let ws := t.takeWhile pyIsSpace
        match t.drop ws.length with
        | q :: r2 =>
            if q = quoteChar && ws.contains '\n' then
              f :: ',' :: '\n' :: quoteChar :: subNlQuote f fuel r2
            else c :: subNlQuote f fuel t
        | [] => c :: subNlQuote f fuel t
      else c :: subNlQuote f fuel t

/-- Run one fuel-driven rule with the length of the list as fuel. -/
def runRule (rule : Nat → List Char → List Char) (l : List Char) : List Char :=
  rule l.length l

/-- `GroqService._fix_json_syntax`: the ordered cascade of syntax-repair
rules (trailing commas, missing commas, orphaned
lines, newline comma cleanup). -/
def fixJsonRepair (s : String) : String :=
  let l1 := runRule subTrailingComma s.data
  let l2 := runRule (subBetween rbrace lbrace) l1
  let l3 := runRule (subBetween ']' '[') l2
  let l4 := runRule (subBetween rbrace quoteChar) l3
  let l5 := runRule (subBetween ']' quoteChar) l4
  let l6 := runRule subQuoteKey l5
  let l7 := lineFix l6
  let l8 := runRule (subNlQuote quoteChar) l7
  let l9 := runRule (subNlQuote rbrace) l8
  let l10 := runRule (subNlQuote ']') l9
  String.mk l10

/-- Python `s.find(c)` for a single character (`none` models `-1`). -/
def pyFindChar (l : List Char) (c : Char) : Option Nat :=
  l.findIdx? (fun x => x = c)

/-- Python `s.rfind(c)` for a single character (`none` models `-1`). -/
def pyRFindChar (l : List Char) (c : Char) : Option Nat :=
  (l.reverse.findIdx? (fun x => x = c)).map (fun k => l.length - 1 - k)

/-- The extraction slice of `GroqService.generate_flashcards`: strip the
response, then cut from the first opening brace to one past the last
closing brace (or just up to the last closing brace when the text already
starts with a brace). -/
def groqExtractClean (response : String) : String :=
  let rc := stripList response.data
  let sliced :=
    if fenceJsonMarker.isPrefixOf rc then
      match pyFindChar rc lbrace, pyRFindChar rc rbrace with
      | some st, some en => if st < en + 1 then (rc.drop st).take (en + 1 - st) else rc
      | _, _ => rc
    else if [lbrace].isPrefixOf rc then
      match pyRFindChar rc rbrace with
      | some en => rc.take (en + 1)
      | none => rc
    else
      match pyFindChar rc lbrace, pyRFindChar rc rbrace with
      | some st, some en => if st < en + 1 then (rc.drop st).take (en + 1 - st) else rc
      | _, _ => rc
  String.mk sliced

/-! ### Flashcard generator (`app/services/flashcard_generator.py`) -/

/-- Input word payload (`word_data` dict); a missing key is `none`. -/
structure WordData where
  text : String
  translation : Option String := none
  context : Option String := none
  masteryLevel : Option String := none
  definition : Option String := none
deriving DecidableEq

/-- A generated flashcard; `options := none` models a card dict without an
`options` key (the Python `type` key is `cardType` here). -/
structure Card where
  id : String
  wordId : String
  cardType : String
  subType : String
  question : String
  answer : String
  options : Option (List String) := none
  hints : List String := []
  explanation : String := ""
  difficulty : String
  timeLimit : Nat
  points : Nat
  context : Option String := none
  originalContext : Option String := none
  contextExplanation : Option String := none
  audioUrl : Option String := none
  phonetic : Option String := none
  showTime : Option Nat := none
  responseTime : Option Nat := none
  speedBonus : Bool := false
deriving DecidableEq

/-- `FlashcardGenerator._generate_translation_distractors`. -/
def translationDistractors (correctAnswer : String) (_userLevel : String) : List String :=
  let a := pyLower correctAnswer
  if a = "bonjour" then ["bonsoir", "au revoir", "salut"]
  else if a = "au revoir" then ["bonjour", "à bientôt", "merci"]
  else if a = "merci" then ["pardon", "s\x27il vous plaît", "de rien"]
  else if a = "oui" then ["non", "peut-être", "bien sûr"]
  else if a = "non" then ["oui", "jamais", "pas du tout"]
  else ["option1", "option2", "option3"]

/-- `FlashcardGenerator._generate_english_distractors`. -/
def englishDistractors (correctAnswer : String) (_userLevel : String) : List String :=
  let a := pyLower correctAnswer
  if a = "hello" then ["goodbye", "thanks", "sorry"]
  else if a = "goodbye" then ["hello", "welcome", "please"]
  else if a = "thank you" then ["excuse me", "you\x27re welcome", "sorry"]
  else if a = "yes" then ["no", "maybe", "sure"]
  else if a = "no" then ["yes", "never", "not at all"]
  else ["word1", "word2", "word3"]

/-- `FlashcardGenerator._generate_contextual_distractors`. -/
def fgContextualDistractors (word : String) (_context : String) (_userLevel : String) :
    List String :=
  if pyInStr "hello" (pyLower word) then ["goodbye", "thanks", "sorry"]
  else if pyInStr "thank" (pyLower word) then ["hello", "goodbye", "excuse me"]
  else ["option1", "option2", "option3"]

/-- `FlashcardGenerator._generate_situational_distractors`. -/
def situationalDistractors (_word : String) (_userLevel : String) : List String :=
  ["situation1", "situation2", "situation3"]

/-- `FlashcardGenerator._generate_phonetic_distractors`. -/
def phoneticDistractors (word : String) (_userLevel : String) : List String :=
  let a := pyLower word
  if a = "hello" then ["halo", "hollow", "hero"]
  else if a = "goodbye" then ["good buy", "good by", "good bye"]
  else if a = "thank" then ["think", "thick", "thunk"]
  else ["sound1", "sound2", "sound3"]

/-- `FlashcardGenerator._generate_word_distractors`. -/
def wordDistractors (_word : String) (_userLevel : String) : List String :=
  ["word1", "word2", "word3"]

/-- `FlashcardGenerator._map_level_to_difficulty`. -/
def mapLevelToDifficulty (userLevel : String) : String :=
  if userLevel = "A1" then "easy"
  else if userLevel = "A2" then "easy"
  else if userLevel = "B1" then "medium"
  else if userLevel = "B2" then "medium"
  else if userLevel = "C1" then "hard"
  else if userLevel = "C2" then "hard"
  else "medium"

/-- `FlashcardGenerator._get_context_explanation`. -/
def contextExplanationFor (word : String) : String :=
  let a := pyLower word
  if a = "hello" then "saluer quelqu\x27un"
  else if a = "goodbye" then "dire au revoir"
  else if a = "thank" then "remercier"
  else if a = "sorry" then "s\x27excuser"
  else "communiquer"

/-- `FlashcardGenerator.select_card_type`; `none` models the `IndexError`
raised by indexing an empty filtered list. -/
def selectCardType (masteryLevel : String) (availableTypes : List String)
    (isPremium : Bool) : Option String :=
  let available :=
    if isPremium then availableTypes
    else availableTypes.filter (fun t => t == "classic" || t == "contextual")
  if masteryLevel = "NEW" then
    if available.contains "classic" then some "classic" else available.head?
  else if masteryLevel = "LEARNING" then
    if available.contains "contextual" then some "contextual" else available.head?
  else if masteryLevel = "FAMILIAR" then
    some (if available.contains "audio" then "audio" else "contextual")
  else
    some (if available.contains "speed" then "speed" else "audio")

/-- Question/answer/distractor triple of the classic-card subtype branch
in `FlashcardGenerator.generate_classic_card`. -/
def classicQAD (w : WordData) (userLevel subType : String) : String × String × List String :=
  if subType = "translation_to_french" then
    let answer := w.translation.getD "traduction"
    ("Que signifie \x27" ++ w.text ++ "\x27 ?", answer, translationDistractors answer userLevel)
  else if subType = "french_to_english" then
    ("Comment dit-on \x27" ++ w.translation.getD "traduction" ++ "\x27 en anglais ?",
      w.text, englishDistractors w.text userLevel)
  else if subType = "definition_match" then
    (w.definition.getD ("Definition of " ++ w.text), w.text, wordDistractors w.text userLevel)
  else
    ("Quel est un synonyme de \x27" ++ w.text ++ "\x27 ?", "synonym",
      ["option1", "option2", "option3"])

/-- `FlashcardGenerator.generate_classic_card`; `choice` models
`random.choice(subtypes[:2])` and `shuffle` models `random.shuffle`. -/
def genClassicCard (w : WordData) (cardId userLevel : String) (choice : Nat)
    (shuffle : List String → List String) : Card :=
  let subType := (["translation_to_french", "french_to_english"]).getD (choice % 2) ""
  let qad := classicQAD w userLevel subType
  let options := shuffle ([qad.2.1] ++ qad.2.2.take 3)
  { id := cardId
    wordId := "word_" ++ w.text
    cardType := "classic"
    subType := subType
    question := qad.1
    answer := qad.2.1
    options := some options
    hints := ["C\x27est un mot de niveau " ++ userLevel]
    explanation := "\x27" ++ w.text ++ "\x27 signifie \x27" ++ w.translation.getD "traduction" ++ "\x27"
    difficulty := mapLevelToDifficulty userLevel
    timeLimit := 15000
    points := 10 }

/-- Fill-in-blank construction at the top of
`FlashcardGenerator.generate_contextual_card`: returns the blanked
context and the (possibly rewritten) context; the membership test is
case-insensitive while `str.replace` is case-sensitive. -/
def contextualBlank (w : WordData) : String × String :=
  let context0 := w.context.getD ("Example with " ++ w.text)
  if pyInStr (pyLower w.text) (pyLower context0) then
    (pyReplaceFirst context0 w.text "_____", context0)
  else
    ("_____, how are you today?", w.text ++ ", how are you today?")

/-- Question/answer/distractor triple of the contextual-card subtype
branch. -/
def contextualQAD (word context blankContext userLevel subType : String) :
    String × String × List String :=
  if subType = "fill_in_blank" then
    ("Complétez la phrase : \x27" ++ blankContext ++ "\x27", word,
      fgContextualDistractors word context userLevel)
  else if subType = "context_completion" then
    ("Dans cette situation : \x27" ++ context ++ "\x27, quel mot convient le mieux ?", word,
      situationalDistractors word userLevel)
  else
    ("Quelle situation correspond à \x27" ++ word ++ "\x27 ?", "Saluer quelqu\x27un",
      ["Dire au revoir", "Remercier", "S\x27excuser"])

/-- `FlashcardGenerator.generate_contextual_card`; `choice` models
`random.choice(subtypes)` over the three subtypes. -/
def genContextualCard (w : WordData) (cardId userLevel : String) (choice : Nat)
    (shuffle : List String → List String) : Card :=
  let word := w.text
  let bc := contextualBlank w
  let blankContext := bc.1
  let context := bc.2
  let subType := (["fill_in_blank", "context_completion", "situation_match"]).getD (choice % 3) ""
  let qad := contextualQAD word context blankContext userLevel subType
  let options := shuffle ([qad.2.1] ++ qad.2.2.take 3)
  { id := cardId
    wordId := "word_" ++ w.text
    cardType := "contextual"
    subType := subType
    question := qad.1
    answer := qad.2.1
    options := some options
    context := some blankContext
    originalContext := some context
    contextExplanation := some ("Dans cette situation, on utilise \x27" ++ word ++
      "\x27 pour " ++ contextExplanationFor word)
    difficulty := mapLevelToDifficulty userLevel
    timeLimit := 20000
    points := 15 }

/-- Question/answer/distractor triple of the audio-card subtype branch. -/
def audioQAD (w : WordData) (userLevel subType : String) : String × String × List String :=
  if subType = "pronunciation_recognition" then
    let answer := w.translation.getD "traduction"
    ("Écoutez et choisissez la bonne traduction", answer,
      translationDistractors answer userLevel)
  else
    ("Écoutez et écrivez ce que vous entendez", w.text, phoneticDistractors w.text userLevel)

/-- `FlashcardGenerator.generate_audio_card` (the random audio-metadata
gender is not modelled; no claim touches it). -/
def genAudioCard (w : WordData) (cardId userLevel : String) (choice : Nat)
    (shuffle : List String → List String) : Card :=
  let word := w.text
  let subType := (["pronunciation_recognition", "listen_translate"]).getD (choice % 2) ""
  let qad := audioQAD w userLevel subType
  let options := shuffle ([qad.2.1] ++ qad.2.2.take 3)
  { id := cardId
    wordId := "word_" ++ w.text
    cardType := "audio"
    subType := subType
    question := qad.1
    answer := qad.2.1
    options := some options
    audioUrl := some ("https://api.netflix-english-learner.com/audio/" ++ word ++ "_native.mp3")
    phonetic := some ("/" ++ word ++ "/")
    difficulty := mapLevelToDifficulty userLevel
    timeLimit := 25000
    points := 20 }

/-- `FlashcardGenerator.generate_speed_card`; the returned dict has no
`options` key, hence `options := none`. -/
def genSpeedCard (w : WordData) (cardId _userLevel : String) (choice : Nat) : Card :=
  let word := w.text
  let subType := (["rapid_translation", "flash_memory"]).getD (choice % 2) ""
  let qast :=
    if subType = "rapid_translation" then
      (word, w.translation.getD "traduction", 2000, 3000)
    else
      ("Mémorisez: " ++ word ++ " = " ++ w.translation.getD "traduction",
        w.translation.getD "traduction", 3000, 2000)
  { id := cardId
    wordId := "word_" ++ w.text
    cardType := "speed"
    subType := subType
    question := qast.1
    answer := qast.2.1
    options := none
    showTime := some qast.2.2.1
    responseTime := some qast.2.2.2
    difficulty := "hard"
    timeLimit := qast.2.2.1 + qast.2.2.2
    points := 50
    speedBonus := true }

/-! ### Flashcard batch orchestrator (`AIService.generate_flashcards`) -/

/-- Session configuration (`session_config` dict with the `.get` defaults
used by `AIService.generate_flashcards`). -/
structure SessionConfig where
  types : List String := ["classic", "contextual"]
  userLevel : String := "A2"
  isPremium : Bool := false
  count : Nat := 10
deriving DecidableEq

/-- Difficulty histogram of a batch. -/
structure DifficultyMix where
  easy : Nat
  medium : Nat
  hard : Nat
deriving DecidableEq

/-- Batch metadata. -/
structure SessionMeta where
  totalCards : Nat
  estimatedTime : Nat
  difficultyMix : DifficultyMix
deriving DecidableEq

/-- A flashcard batch result. -/
structure Batch where
  sessionId : String
  cards : List Card
  metadata : SessionMeta
deriving DecidableEq

/-- Option-valued `List.map` (a `none` models a raised exception inside
the loop body). -/
def mapOpt (f : α → Option β) : List α → Option (List β)
  | [] => some []
  | a :: l =>
      match f a, mapOpt f l with
      | some b, some bs => some (b :: bs)
      | _, _ => none

/-- Option-valued left fold. -/
def foldOpt (f : γ → α → Option γ) : γ → List α → Option γ
  | acc, [] => some acc
  | acc, a :: l =>
      match f acc a with
      | some acc2 => foldOpt f acc2 l
      | none => none

/-- One step of `difficulty_count[card.get('difficulty','medium')] += 1`;
`none` models the `KeyError` on a difficulty outside the three buckets. -/
def diffAdd (acc : Nat × Nat × Nat) (d : String) : Option (Nat × Nat × Nat) :=
  if d = "easy" then some (acc.1 + 1, acc.2.1, acc.2.2)
  else if d = "medium" then some (acc.1, acc.2.1 + 1, acc.2.2)
  else if d = "hard" then some (acc.1, acc.2.1, acc.2.2 + 1)
  else none

/-- Card construction for one word in `AIService.generate_flashcards`:
select the card type, then dispatch on it (premium types require the
premium flag, everything else falls back to a classic card). -/
def aiCardFor (cfg : SessionConfig) (shuffle : Nat → List String → List String)
    (pick : Nat → Nat) (i : Nat) (w : WordData) : Option Card :=
  let cardId := "card_" ++ toString (i + 1)
  let mastery := w.masteryLevel.getD "NEW"
  (selectCardType mastery cfg.types cfg.isPremium).map (fun cardType =>
    if cardType = "classic" then genClassicCard w cardId cfg.userLevel (pick i) (shuffle i)
    else if cardType = "contextual" then genContextualCard w cardId cfg.userLevel (pick i) (shuffle i)
    else if cardType = "audio" ∧ cfg.isPremium then genAudioCard w cardId cfg.userLevel (pick i) (shuffle i)
    else if cardType = "speed" ∧ cfg.isPremium then genSpeedCard w cardId cfg.userLevel (pick i)
    else genClassicCard w cardId cfg.userLevel (pick i) (shuffle i))

/-- `AIService.generate_flashcards`: generate one card per selected word,
recompute the difficulty histogram and the estimated time from the final
card list; `none` models an uncaught exception (`IndexError`/`KeyError`). -/
def aiGenerateFlashcards (wordsData : List WordData) (cfg : SessionConfig)
    (shuffle : Nat → List String → List String) (pick : Nat → Nat)
    (sessionId : String) : Option Batch :=
  let selected := wordsData.take cfg.count
  match mapOpt (fun p => aiCardFor cfg shuffle pick p.1 p.2) selected.enum with
  | none => none
  | some cards =>
      match foldOpt diffAdd (0, 0, 0) (cards.map Card.difficulty) with
      | none => none
      | some counts =>
          some { sessionId := sessionId
                 cards := cards
                 metadata :=
                   { totalCards := cards.length
                     estimatedTime := (cards.map Card.timeLimit).sum / 1000
                     difficultyMix :=
                       { easy := counts.1, medium := counts.2.1, hard := counts.2.2 } } }

/-! ### Groq flashcard normalization
(`GroqService.generate_flashcards`, success path after `json.loads`) -/

/-- A parsed provider card (JSON dict); every key may be absent. -/
structure RawCard where
  id : Option String := none
  wordId : Option String := none
  rcType : Option String := none
  subType : Option String := none
  question : Option String := none
  answer : Option String := none
  options : Option (List (Option String)) := none
  hints : Option (List String) := none
  explanation : Option String := none
  difficulty : Option String := none
  timeLimit : Nat := 15000
  points : Nat := 10
deriving DecidableEq

/-- A parsed provider batch. -/
structure GroqResult where
  sessionId : String
  cards : List RawCard
  metadata : SessionMeta
deriving DecidableEq

/-- Python `str(opt)` for an optional string (`str(None) = "None"`). -/
def strOfOpt : Option String → String
  | some s => s
  | none => "None"

/-- The placeholder test in the Groq normalizer: some option entry contains
`option` or `incorrecte` (case-insensitively). -/
def placeholderish (opts : List (Option String)) : Bool :=
  opts.any (fun o =>
    pyInStr "option" (pyLower (strOfOpt o)) || pyInStr "incorrecte" (pyLower (strOfOpt o)))

/-- `GroqService._get_contextual_distractors`. -/
def groqContextualDistractors (answer : String) : List String :=
  let a := pyLower answer
  if a = "think" then ["believe", "know", "feel"]
  else if a = "arm" then ["hand", "leg", "foot"]
  else if a = "decaf" then ["regular", "strong", "black"]
  else if a = "of" then ["from", "with", "by"]
  else if a = "don\x27t" then ["can\x27t", "won\x27t", "shouldn\x27t"]
  else if a = "motto" then ["slogan", "phrase", "saying"]
  else if a = "tiger" then ["lion", "leopard", "panther"]
  else if a = "tear" then ["rip", "break", "cut"]
  else if a = "bored" then ["tired", "excited", "happy"]
  else if a = "hello" then ["goodbye", "thanks", "sorry"]
  else if a = "world" then ["planet", "earth", "globe"]
  else if a = "love" then ["hate", "like", "enjoy"]
  else if a = "book" then ["magazine", "newspaper", "novel"]
  else if a = "water" then ["juice", "milk", "coffee"]
  else if a = "groaning" then ["moaning", "crying", "shouting"]
  else if a = "brainless" then ["mindless", "thoughtless", "careless"]
  else if a = "fantasy" then ["reality", "dream", "story"]
  else if a = "applause" then ["silence", "booing", "cheering"]
  else if answer.length ≤ 4 then ["word", "item", "thing"]
  else if "ing".data.isSuffixOf answer.data then ["running", "walking", "talking"]
  else if "ed".data.isSuffixOf answer.data then ["played", "worked", "lived"]
  else ["something", "anything", "nothing"]

/-- Entry fix of the generic options branch: a `None` or empty entry at
index `j` becomes `Option (j+1)`. -/
def fixOptionEntries (opts : List (Option String)) : List (Option String) :=
  opts.enum.map (fun p =>
    match p.2 with
    | none => some ("Option " ++ toString (p.1 + 1))
    | some s => if s = "" then some ("Option " ++ toString (p.1 + 1)) else some s)

/-- Closed form of the padding loop `while len(options) < 4: append
"Option {len+1}"`. -/
def padOptions (opts : List (Option String)) : List (Option String) :=
  opts ++ (List.range (4 - opts.length)).map
    (fun k => some ("Option " ++ toString (opts.length + k + 1)))

/-- Generic options branch of the Groq normalizer: fix `None`/empty
entries, pad to four, truncate to four. -/
def fixOptionsGeneric (opts : List (Option String)) : List (Option String) :=
  (padOptions (fixOptionEntries opts)).take 4

/-- Per-card normalization in `GroqService.generate_flashcards` (the loop
body over `result["cards"]`): default the answer and question, repair or
regenerate the options, default the remaining fields, and force the
contextual shape when `contextual` is the only requested type. -/
def groqNormalizeCard (availableTypes : List String)
    (shuffle : Nat → List String → List String) (i : Nat) (card : RawCard) : RawCard :=
  let wordText := pyReplaceAll (card.wordId.getD ("word_" ++ toString (i + 1))) "word_" ""
  let answer1 :=
    match card.answer with
    | none => if wordText ≠ "" then "Réponse pour " ++ wordText else "Réponse " ++ toString (i + 1)
    | some a =>
        if a = "" then
          if wordText ≠ "" then "Réponse pour " ++ wordText else "Réponse " ++ toString (i + 1)
        else a
  let question1 :=
    match card.question with
    | none =>
        if wordText ≠ "" then "Que signifie \x27" ++ wordText ++ "\x27 ?"
        else "Question " ++ toString (i + 1)
    | some q =>
        if q = "" then
          if wordText ≠ "" then "Que signifie \x27" ++ wordText ++ "\x27 ?"
          else "Question " ++ toString (i + 1)
        else q
  let contextualRegen : List (Option String) :=
    (shuffle i ([answer1] ++ (groqContextualDistractors answer1).take 3)).map some
  let options1 : List (Option String) :=
    match card.options with
    | none =>
        if card.rcType = some "contextual" then contextualRegen
        else [some answer1, some "Option incorrecte 1", some "Option incorrecte 2",
          some "Option incorrecte 3"]
    | some l =>
        if l.length = 0 then
          if card.rcType = some "contextual" then contextualRegen
          else [some answer1, some "Option incorrecte 1", some "Option incorrecte 2",
            some "Option incorrecte 3"]
        else if placeholderish l then
          if card.rcType = some "contextual" then contextualRegen else l
        else fixOptionsGeneric l
  let hints1 := card.hints.getD []
  let explanation1 := card.explanation.getD ""
  let difficulty1 := card.difficulty.getD "easy"
  let forced := availableTypes.contains "contextual" && availableTypes.length == 1
  let qa2 :=
    if forced && !(pyInStr "_____" question1) then
      ("Complete the sentence: \x27The " ++ wordText ++ " was _____\x27", wordText)
    else (question1, answer1)
  { card with
    rcType := if forced then some "contextual" else card.rcType
    question := some qa2.1
    answer := some qa2.2
    options := some options1
    hints := some hints1
    explanation := some explanation1
    difficulty := some difficulty1 }

/-- Post-parse normalization of `GroqService.generate_flashcards`: the
card count and estimated time in the metadata are recomputed from the parsed
list length (15 seconds per card), the difficulty mix is kept from the
raw provider output, and every card runs through `groqNormalizeCard`. -/
def groqNormalizeResult (res : GroqResult) (availableTypes : List String)
    (shuffle : Nat → List String → List String) : GroqResult :=
  let actualCount := res.cards.length
  { sessionId := res.sessionId
    cards := res.cards.enum.map (fun p => groqNormalizeCard availableTypes shuffle p.1 p.2)
    metadata :=
      { totalCards := actualCount
        estimatedTime := actualCount * 15
        difficultyMix := res.metadata.difficultyMix } }

/-! ### Recommendations (`MLXAIService.generate_recommendations`) -/

/-- User progress snapshot; `averageAccuracy` uses `Rat`, exact for the
decimal thresholds compared by the source. -/
structure UserProgress where
  totalWords : Int
  masteredWords : Int
  weakAreas : List String
  averageAccuracy : Rat
deriving DecidableEq

/-- One recommendation entry; the entry of the first rule carries no
`reason` key, hence the `Option`. -/
structure Recommendation where
  recType : String
  content : String
  priority : String
  reason : Option String := none
deriving DecidableEq

/-- Approximate rendering of the Python percent format with one decimal;
only used inside a reason string that no claim inspects. -/
def formatPct (q : Rat) : String :=
  let m : Int := round (q * 1000)
  toString (m / 10) ++ "." ++ toString (m % 10) ++ "%"

/-- `MLXAIService.generate_recommendations`: threshold rules, the
weak-areas rule replacing the list built so far, and a final cap at three
entries. -/
def generateRecommendations (p : UserProgress) : List Recommendation :=
  let recs0 : List Recommendation := []
  let recs1 :=
    if p.averageAccuracy < 7/10 then
      recs0 ++ [{ recType := "practice_focus"
                  content := "Focus on reviewing basic vocabulary to improve accuracy"
                  priority := "high" }]
    else recs0
  let recs2 :=
    if p.weakAreas ≠ [] then
      [{ recType := "weak_areas"
         content := "Focus on: " ++
           (if p.weakAreas ≠ [] then String.intercalate ", " (p.weakAreas.take 2)
            else "vocabulary expansion")
         priority := "medium"
         reason := some "Based on your performance patterns" },
       { recType := "review_session"
         content := "Review session recommended (" ++
           toString (p.totalWords - p.masteredWords) ++ " words to practice)"
         priority := if p.averageAccuracy < 7/10 then "high" else "low"
         reason := some (if p.averageAccuracy < 7/10 then
             "Your accuracy is " ++ formatPct p.averageAccuracy ++ ", improvement needed"
           else "Maintenance review") }]
    else recs1
  let recs3 :=
    if 0 < p.totalWords ∧ (p.masteredWords : Rat) / (p.totalWords : Rat) < 1/2 then
      recs2 ++ [{ recType := "mastery"
                  content := "Spend more time reviewing learned words to improve retention"
                  priority := "medium"
                  reason := some ("Only " ++ toString p.masteredWords ++ "/" ++
                    toString p.totalWords ++ " words mastered") }]
    else recs2
  recs3.take 3

/-- Priority rank: high before medium before low. -/
def priorityRank (s : String) : Nat :=
  if s = "high" then 0 else if s = "medium" then 1 else 2

/-- Whether a rank list is nondecreasing (the claimed ordering). -/
def ranksSorted : List Nat → Bool
  | [] => true
  | [_] => true
  | a :: b :: t => decide (a ≤ b) && ranksSorted (b :: t)

/-! ### Word analysis (`GroqService.analyze_word`) -/

/-- The word-analysis payload (the nine-field schema). -/
structure WordAnalysis where
  word : String
  translation : String
  definition : String
  difficulty : String
  cefrLevel : String
  contextAnalysis : String
  usageExamples : List String
  synonyms : List String
  etymology : String
deriving DecidableEq

/-- The hard-coded fallback analysis of `GroqService.analyze_word`
(`user_level or "A2"` via the empty-string falsiness model). -/
def groqAnalyzeFallback (word context userLevel : String) : WordAnalysis :=
  { word := word
    translation := "Traduction automatique"
    definition := "Définition de \x27" ++ word ++ "\x27 non disponible"
    difficulty := if userLevel = "" then "A2" else userLevel
    cefrLevel := if userLevel = "" then "A2" else userLevel
    contextAnalysis := "Analyse contextuelle de \x27" ++ word ++ "\x27 dans: " ++ context
    usageExamples := ["Exemple d\x27usage de \x27" ++ word ++ "\x27"]
    synonyms := ["synonyme1", "synonyme2"]
    etymology := "Étymologie de \x27" ++ word ++ "\x27 non disponible" }

/-- `GroqService.analyze_word`: the provider step
(`_generate_completion`) wraps any failure in
`Exception("Groq API failed: ...")`, and the surrounding handler catches
only `json.JSONDecodeError`, so a provider failure propagates while a
parse failure falls back. -/
def groqAnalyzeWord (word context _langOut userLevel : String)
    (providerResult : Except String String)
    (jsonLoads : String → Option WordAnalysis) : Except String WordAnalysis :=
  match providerResult with
  | Except.error e => Except.error ("Groq API failed: " ++ e)
  | Except.ok response =>
      match jsonLoads response with
      | some r => Except.ok r
      | none => Except.ok (groqAnalyzeFallback word context userLevel)

/-! ### Concrete inputs used by the counterexamples and witnesses -/

/-- Identity shuffle (one admissible value of `random.shuffle`). -/
def idShuffle : Nat → List String → List String := fun _ l => l

/-- Identity shuffle for a single card generator call. -/
def idShuffleOne : List String → List String := fun l => l

/-- Constant subtype choice (one admissible value of `random.choice`). -/
def pickZero : Nat → Nat := fun _ => 0

/-- A single mastered word, used with a premium speed-only session. -/
def cexWordsSpeed : List WordData :=
  [{ text := "dog", translation := some "chien", masteryLevel := some "MASTERED" }]

/-- Premium session requesting only speed cards. -/
def cexCfgSpeed : SessionConfig :=
  { types := ["speed"], userLevel := "A2", isPremium := true, count := 1 }

/-- A word whose translation collides with a generic distractor label. -/
def cexWordsDup : List WordData :=
  [{ text := "dog", translation := some "option1" }]

/-- Non-premium classic-only session. -/
def cexCfgDup : SessionConfig :=
  { types := ["classic"], userLevel := "A2", isPremium := false, count := 1 }

/-- A mastered word for a non-premium caller with all four types offered. -/
def cexWordsDowngrade : List WordData :=
  [{ text := "dog", translation := some "chien", masteryLevel := some "MASTERED" }]

/-- Non-premium session offering all four card types. -/
def cexCfgDowngrade : SessionConfig :=
  { types := ["classic", "contextual", "audio", "speed"], userLevel := "A2",
    isPremium := false, count := 1 }

/-- Parsed provider card whose answer sits at position five of a
five-entry options array. -/
def rawCexTrunc : RawCard :=
  { question := some "q", answer := some "ee", rcType := some "classic",
    options := some [some "aa", some "bb", some "cc", some "dd", some "ee"] }

/-- Parsed provider card with a two-entry options array containing a
placeholder-like entry, on a non-contextual card. -/
def rawCexShort : RawCard :=
  { question := some "q", answer := some "xx", rcType := some "classic",
    options := some [some "aa", some "option zz"] }

/-- Parsed provider batch whose metadata difficulty mix does not match its
single card, and whose card has a 20-second time limit. -/
def groqCexResult : GroqResult :=
  { sessionId := "s"
    cards := [{ question := some "q", answer := some "a", rcType := some "classic",
                options := some [some "w", some "x", some "y", some "z"],
                timeLimit := 20000, difficulty := some "hard" }]
    metadata := { totalCards := 5, estimatedTime := 75,
                  difficultyMix := { easy := 0, medium := 0, hard := 0 } } }

/-- Raw response with a parseable first balanced object followed by
trailing text and a stray closing brace. -/
def c6input : String := "\x7b\"a\": 1\x7d x \x7d"

/-- Progress snapshot with weak areas, low accuracy and a high mastered
ratio: the produced list is `[medium, high]`, out of priority order. -/
def recsCexProgress : UserProgress :=
  { totalWords := 10, masteredWords := 9, weakAreas := ["verbs"], averageAccuracy := 1/2 }

/-- Progress snapshot for the witness: low accuracy and a low mastered
ratio. -/
def recsWitnessProgress : UserProgress :=
  { totalWords := 50, masteredWords := 15, weakAreas := ["verbs"], averageAccuracy := 1/2 }

/-! ## Helper lemmas -/

theorem mem_of_mapOpt {α β : Type} {f : α → Option β} {l : List α} {ys : List β}
    (hm : mapOpt f l = some ys) : ∀ y ∈ ys, ∃ x ∈ l, f x = some y := by
  induction l generalizing ys with
  | nil =>
      simp only [mapOpt] at hm
      cases hm
      intro y hy
      cases hy
  | cons a t ih =>
      simp only [mapOpt] at hm
      cases hfa : f a with
      | none => rw [hfa] at hm; cases hm
      | some b =>
          rw [hfa] at hm
          cases hmt : mapOpt f t with
          | none => rw [hmt] at hm; cases hm
          | some bs =>
              rw [hmt] at hm
              cases hm
              intro y hy
              rcases List.mem_cons.mp hy with hyb | hyt
              · exact ⟨a, List.mem_cons_self a t, by rw [hfa, hyb]⟩
              · rcases ih hmt y hyt with ⟨x, hx, hfx⟩
                exact ⟨x, List.mem_cons_of_mem a hx, hfx⟩

theorem diffAdd_sum {acc acc2 : Nat × Nat × Nat} {d : String}
    (h : diffAdd acc d = some acc2) :
    acc2.1 + acc2.2.1 + acc2.2.2 = acc.1 + acc.2.1 + acc.2.2 + 1 := by
  unfold diffAdd at h
  split_ifs at h <;> cases h <;> simp <;> omega

theorem foldOpt_diffAdd (ds : List String) :
    ∀ (acc res : Nat × Nat × Nat), foldOpt diffAdd acc ds = some res →
      res.1 + res.2.1 + res.2.2 = acc.1 + acc.2.1 + acc.2.2 + ds.length := by
  induction ds with
  | nil =>
      intro acc res h
      simp only [foldOpt] at h
      cases h
      simp
  | cons d t ih =>
      intro acc res h
      simp only [foldOpt] at h
      cases hda : diffAdd acc d with
      | none => rw [hda] at h; cases h
      | some acc2 =>
          rw [hda] at h
          have h2 := ih acc2 res h
          have h3 := diffAdd_sum hda
          simp only [List.length_cons]
          omega

theorem translationDistractors_length (a u : String) :
    (translationDistractors a u).length = 3 := by
  simp only [translationDistractors]
  split_ifs <;> rfl

theorem englishDistractors_length (a u : String) :
    (englishDistractors a u).length = 3 := by
  simp only [englishDistractors]
  split_ifs <;> rfl

theorem fgContextualDistractors_length (w c u : String) :
    (fgContextualDistractors w c u).length = 3 := by
  simp only [fgContextualDistractors]
  split_ifs <;> rfl

theorem phoneticDistractors_length (w u : String) :
    (phoneticDistractors w u).length = 3 := by
  simp only [phoneticDistractors]
  split_ifs <;> rfl

theorem classicQAD_length (w : WordData) (lvl st : String) :
    (classicQAD w lvl st).2.2.length = 3 := by
  simp only [classicQAD]
  split_ifs <;>
    simp [translationDistractors_length, englishDistractors_length, wordDistractors]

theorem contextualQAD_length (word c bc lvl st : String) :
    (contextualQAD word c bc lvl st).2.2.length = 3 := by
  simp only [contextualQAD]
  split_ifs <;> simp [fgContextualDistractors_length, situationalDistractors]

theorem audioQAD_length (w : WordData) (lvl st : String) :
    (audioQAD w lvl st).2.2.length = 3 := by
  simp only [audioQAD]
  split_ifs <;>
    simp [translationDistractors_length, phoneticDistractors_length]

theorem isPrefixOf_mem {n h : List Char} (hp : n.isPrefixOf h = true) :
    ∀ x ∈ n, x ∈ h := by
  induction n generalizing h with
  | nil => intro x hx; cases hx
  | cons a as ih =>
      cases h with
      | nil => simp [List.isPrefixOf] at hp
      | cons b bs =>
          simp only [List.isPrefixOf, Bool.and_eq_true, beq_iff_eq] at hp
          intro x hx
          rcases List.mem_cons.mp hx with hxa | hxs
          · exact List.mem_cons.mpr (Or.inl (hxa.trans hp.1))
          · exact List.mem_cons.mpr (Or.inr (ih hp.2 x hxs))

theorem isPrefixOf_append {n m : List Char} (r : List Char)
    (hp : n.isPrefixOf m = true) : n.isPrefixOf (m ++ r) = true := by
  induction n generalizing m with
  | nil => simp [List.isPrefixOf]
  | cons a as ih =>
      cases m with
      | nil => simp [List.isPrefixOf] at hp
      | cons b bs =>
          simp only [List.isPrefixOf, Bool.and_eq_true, beq_iff_eq] at hp
          simp only [List.cons_append, List.isPrefixOf, Bool.and_eq_true, beq_iff_eq]
          exact ⟨hp.1, ih hp.2⟩

theorem isSub_nil_left (h : List Char) : isSub [] h = true := by
  cases h <;> simp [isSub, List.isPrefixOf]

theorem isSub_append_right {n m : List Char} (r : List Char)
    (hs : isSub n m = true) : isSub n (m ++ r) = true := by
  induction m with
  | nil =>
      simp only [isSub] at hs
      have : n = [] := by
        cases n with
        | nil => rfl
        | cons a as => simp [List.isPrefixOf] at hs
      subst this
      exact isSub_nil_left r
  | cons b bs ih =>
      simp only [isSub, Bool.or_eq_true] at hs
      rcases hs with hp | ht
      · have := isPrefixOf_append r hp
        simp only [List.cons_append, isSub, Bool.or_eq_true]
        exact Or.inl (by simpa using this)
      · simp only [List.cons_append, isSub, Bool.or_eq_true]
        exact Or.inr (ih ht)

theorem isSub_append_left {n m : List Char} (l : List Char)
    (hs : isSub n m = true) : isSub n (l ++ m) = true := by
  induction l with
  | nil => simpa using hs
  | cons c cs ih =>
      simp only [List.cons_append, isSub, Bool.or_eq_true]
      exact Or.inr ih

theorem isSub_subset {n h : List Char} (hs : isSub n h = true) :
    ∀ x ∈ n, x ∈ h := by
  induction h with
  | nil =>
      simp only [isSub] at hs
      intro x hx
      cases n with
      | nil => cases hx
      | cons a as => simp [List.isPrefixOf] at hs
  | cons b bs ih =>
      simp only [isSub, Bool.or_eq_true] at hs
      rcases hs with hp | ht
      · exact isPrefixOf_mem hp
      · intro x hx
        exact List.mem_cons.mpr (Or.inr (ih ht x hx))

theorem isSub_false_of_missing {n h : List Char} {c : Char}
    (hc : c ∈ n) (hh : c ∉ h) : isSub n h = false := by
  cases hs : isSub n h with
  | false => rfl
  | true => exact absurd (isSub_subset hs c hc) hh

theorem replaceFirst_of_not_sub {s old : List Char} (new : List Char)
    (h : isSub old s = false) : replaceFirstList s old new = s := by
  induction s with
  | nil =>
      have ho : old ≠ [] := by
        intro he
        rw [he, isSub_nil_left] at h
        cases h
      unfold replaceFirstList
      rw [if_neg ho]
  | cons c t ih =>
      have hor : (old.isPrefixOf (c :: t) || isSub old t) = false := by
        simpa [isSub] using h
      rcases Bool.or_eq_false_iff.mp hor with ⟨hp, ht⟩
      have ho : old ≠ [] := by
        intro he
        rw [he] at hp
        simp [List.isPrefixOf] at hp
      unfold replaceFirstList
      rw [if_neg ho]
      simp only [hp, Bool.false_eq_true, if_false]
      rw [ih ht]

theorem extractAux_eq {α : Type} (parse : String → Option α) (cl : List Char) :
    ∀ (fuel i : Nat) (level : Int) (start : Option Nat),
      extractAux parse cl fuel i level start =
        (spansAux cl fuel i level start).findSome? (fun sp => parse (String.mk sp)) := by
  intro fuel
  induction fuel with
  | zero => intro i level start; rfl
  | succ fuel ih =>
      intro i level start
      simp only [extractAux, spansAux]
      cases cl.get? i with
      | none => rfl
      | some ch =>
          dsimp only
          by_cases h1 : ch = lbrace
          · rw [if_pos h1, if_pos h1, ih]
          · rw [if_neg h1, if_neg h1]
            by_cases h2 : ch = rbrace
            · rw [if_pos h2, if_pos h2]
              by_cases h3 : (level - 1 : Int) = 0
              · rw [if_pos h3, if_pos h3]
                cases start with
                | none => dsimp only; exact ih _ _ _
                | some s =>
                    dsimp only
                    rw [List.findSome?_cons]
                    cases hp : parse (String.mk ((cl.drop s).take (i + 1 - s))) with
                    | none => simp only [hp]; exact ih _ _ _
                    | some v => simp only [hp]
              · rw [if_neg h3, if_neg h3]; exact ih _ _ _
            · rw [if_neg h2, if_neg h2]; exact ih _ _ _

theorem genClassicCard_opts (w : WordData) (cid lvl : String) (ch : Nat)
    (sh : List String → List String) (hsh : ∀ l, List.Perm (sh l) l) :
    (genClassicCard w cid lvl ch sh).cardType = "classic" ∧
      ∃ opts, (genClassicCard w cid lvl ch sh).options = some opts ∧ opts.length = 4 ∧
        (genClassicCard w cid lvl ch sh).answer ∈ opts := by
  refine ⟨rfl, _, rfl, ?_, ?_⟩
  · rw [(hsh _).length_eq]
    simp [classicQAD_length]
  · rw [(hsh _).mem_iff]
    simp [genClassicCard]

theorem genContextualCard_opts (w : WordData) (cid lvl : String) (ch : Nat)
    (sh : List String → List String) (hsh : ∀ l, List.Perm (sh l) l) :
    (genContextualCard w cid lvl ch sh).cardType = "contextual" ∧
      ∃ opts, (genContextualCard w cid lvl ch sh).options = some opts ∧ opts.length = 4 ∧
        (genContextualCard w cid lvl ch sh).answer ∈ opts := by
  refine ⟨rfl, _, rfl, ?_, ?_⟩
  · rw [(hsh _).length_eq]
    simp [contextualQAD_length]
  · rw [(hsh _).mem_iff]
    simp [genContextualCard]

theorem genAudioCard_opts (w : WordData) (cid lvl : String) (ch : Nat)
    (sh : List String → List String) (hsh : ∀ l, List.Perm (sh l) l) :
    (genAudioCard w cid lvl ch sh).cardType = "audio" ∧
      ∃ opts, (genAudioCard w cid lvl ch sh).options = some opts ∧ opts.length = 4 ∧
        (genAudioCard w cid lvl ch sh).answer ∈ opts := by
  refine ⟨rfl, _, rfl, ?_, ?_⟩
  · rw [(hsh _).length_eq]
    simp [audioQAD_length]
  · rw [(hsh _).mem_iff]
    simp [genAudioCard]

theorem genSpeedCard_opts (w : WordData) (cid lvl : String) (ch : Nat) :
    (genSpeedCard w cid lvl ch).cardType = "speed" ∧
      (genSpeedCard w cid lvl ch).options = none :=
  ⟨rfl, rfl⟩

theorem aiCardFor_shape {cfg : SessionConfig} {shuffle : Nat → List String → List String}
    {pick : Nat → Nat} {i : Nat} {w : WordData} {c : Card}
    (hsh : ∀ j l, List.Perm (shuffle j l) l)
    (h : aiCardFor cfg shuffle pick i w = some c) :
    (c.cardType = "speed" ∧ c.options = none) ∨
      ∃ opts, c.options = some opts ∧ opts.length = 4 ∧ c.answer ∈ opts := by
  unfold aiCardFor at h
  rcases Option.map_eq_some'.mp h with ⟨ct, hct, hc⟩
  subst hc
  split_ifs with h1 h2 h3 h4
  · exact Or.inr (genClassicCard_opts w _ _ _ _ (hsh i)).2
  · exact Or.inr (genContextualCard_opts w _ _ _ _ (hsh i)).2
  · exact Or.inr (genAudioCard_opts w _ _ _ _ (hsh i)).2
  · exact Or.inl (genSpeedCard_opts w _ _ _)
  · exact Or.inr (genClassicCard_opts w _ _ _ _ (hsh i)).2

theorem aiCardFor_type_nonpremium {cfg : SessionConfig}
    {shuffle : Nat → List String → List String} {pick : Nat → Nat} {i : Nat}
    {w : WordData} {c : Card} (hprem : cfg.isPremium = false)
    (h : aiCardFor cfg shuffle pick i w = some c) :
    c.cardType = "classic" ∨ c.cardType = "contextual" := by
  unfold aiCardFor at h
  rcases Option.map_eq_some'.mp h with ⟨ct, hct, hc⟩
  subst hc
  split_ifs with h1 h2 h3 h4
  · exact Or.inl rfl
  · exact Or.inr rfl
  · rw [hprem] at h3
    exact absurd h3.2 (by simp)
  · rw [hprem] at h4
    exact absurd h4.2 (by simp)
  · exact Or.inl rfl

theorem aiGenerateFlashcards_inv {words : List WordData} {cfg : SessionConfig}
    {shuffle : Nat → List String → List String} {pick : Nat → Nat} {sid : String}
    {b : Batch} (hb : aiGenerateFlashcards words cfg shuffle pick sid = some b) :
    (∃ cards, mapOpt (fun p => aiCardFor cfg shuffle pick p.1 p.2)
        ((words.take cfg.count).enum) = some cards ∧ b.cards = cards) ∧
    b.metadata.totalCards = b.cards.length ∧
    b.metadata.estimatedTime = (b.cards.map Card.timeLimit).sum / 1000 ∧
    b.metadata.difficultyMix.easy + b.metadata.difficultyMix.medium +
      b.metadata.difficultyMix.hard = b.cards.length := by
  unfold aiGenerateFlashcards at hb
  dsimp only at hb
  cases hmo : mapOpt (fun p => aiCardFor cfg shuffle pick p.1 p.2)
      ((words.take cfg.count).enum) with
  | none =>
      rw [hmo] at hb
      simp at hb
  | some cards =>
      rw [hmo] at hb
      dsimp only at hb
      cases hfo : foldOpt diffAdd (0, 0, 0) (cards.map Card.difficulty) with
      | none =>
          rw [hfo] at hb
          simp at hb
      | some counts =>
          rw [hfo] at hb
          dsimp only at hb
          cases hb
          refine ⟨⟨cards, rfl, rfl⟩, rfl, rfl, ?_⟩
          have := foldOpt_diffAdd (cards.map Card.difficulty) (0, 0, 0) counts hfo
          simpa using this

/-! ## Claim theorems -/

/-- C6 (amended part): the MLX response extractor returns exactly the
first parse success over the balanced-brace candidate spans of the
cleaned response, scanning in order, and it fails (raises) exactly when
no balanced span parses. -/
theorem mlx_extractor_spec {α : Type} (parse : String → Option α) (s : String) :
    mlxExtractJson parse s = (balancedSpans (mlxClean s)).findSome? parse ∧
      (mlxExtractJson parse s = none ↔
        ∀ sp ∈ balancedSpans (mlxClean s), parse sp = none) := by
  have e1 : mlxExtractJson parse s =
      extractAux parse (mlxClean s).data ((mlxClean s).data.length + 1) 0 0 none := rfl
  have h := extractAux_eq parse (mlxClean s).data ((mlxClean s).data.length + 1) 0 0 none
  have e2 : (balancedSpans (mlxClean s)).findSome? parse =
      (spansAux (mlxClean s).data ((mlxClean s).data.length + 1) 0 0 none).findSome?
        (fun sp => parse (String.mk sp)) := by
    rw [balancedSpans, List.findSome?_map]
    rfl
  constructor
  · rw [e1, h, e2]
  · rw [e1, h]
    simp only [List.findSome?_eq_none_iff, balancedSpans, List.mem_map]
    constructor
    · rintro h2 sp ⟨l, hl, rfl⟩
      exact h2 l hl
    · intro h2 l hl
      exact h2 (String.mk l) ⟨l, hl, rfl⟩

/-- C6 (witness): the extractor equivalence applied to a concrete parser
and response. -/
theorem mlx_extractor_spec_witness :
    mlxExtractJson miniJsonLoads c6input =
      (balancedSpans (mlxClean c6input)).findSome? miniJsonLoads :=
  (mlx_extractor_spec miniJsonLoads c6input).1

/-- C6 (counterexample): on a response whose first balanced span parses
but which carries trailing text and a stray brace, the claimed algorithm
(implemented by the MLX extractor) succeeds, while the Groq flashcard
path slices from the first brace to the last closing brace, skips the
rebuild (no `"cards"` marker), and its repaired slice does not parse. -/
theorem extractor_counterexample :
    mlxExtractJson miniJsonLoads c6input = some (J.obj [("a", J.num 1)]) ∧
      balancedSpans (mlxClean c6input) = ["\x7b\"a\": 1\x7d"] ∧
      miniJsonLoads "\x7b\"a\": 1\x7d" = some (J.obj [("a", J.num 1)]) ∧
      groqExtractClean c6input = c6input ∧
      pyInStr "\"cards\"" (groqExtractClean c6input) = false ∧
      miniJsonLoads (fixJsonRepair (groqExtractClean c6input)) = none :=
  ⟨rfl, rfl, rfl, rfl, rfl, rfl⟩

/-- C8 (counterexample): the syntax repair is not idempotent; on `,,` and
a closing brace a second pass removes a comma the first pass left. -/
theorem repair_idempotence_counterexample :
    fixJsonRepair (fixJsonRepair ",,\x7d") ≠ fixJsonRepair ",,\x7d" := by
  decide

/-- C8 (amended): the trailing-comma rule removes only non-overlapping
matches in one pass, so repair need not reach a fixed point in one pass:
`,,` before a closing brace repairs to a single comma and brace, and only
the second pass deletes the remaining comma. -/
theorem repair_two_pass_amended :
    fixJsonRepair ",,\x7d" = ",\x7d" ∧ fixJsonRepair ",\x7d" = "\x7d" :=
  ⟨rfl, rfl⟩

/-- C1 (code bug): in `GroqService.analyze_word` the handler catches only
`json.JSONDecodeError`, so a provider completion failure propagates to
the caller as the wrapped `Groq API failed` exception, while a parse
failure does reach the schema-valid fallback. -/
theorem groq_analyze_word_provider_error :
    groqAnalyzeWord "hello" "Hello, how are you?" "fr" "A2"
        (Except.error "timeout") (fun _ => none) =
      Except.error "Groq API failed: timeout" ∧
    groqAnalyzeWord "hello" "Hello, how are you?" "fr" "A2"
        (Except.ok "not json") (fun _ => none) =
      Except.ok (groqAnalyzeFallback "hello" "Hello, how are you?" "A2") :=
  ⟨rfl, rfl⟩

/-- C2 (counterexample): a premium speed-only batch returns a card with
no options list at all, and a classic batch for a word translated as
`option1` returns four options that are not distinct. -/
theorem flashcard_options_counterexample :
    (∃ b, aiGenerateFlashcards cexWordsSpeed cexCfgSpeed idShuffle pickZero "s" = some b ∧
      ∃ c ∈ b.cards, c.options = none) ∧
    (∃ b, aiGenerateFlashcards cexWordsDup cexCfgDup idShuffle pickZero "s" = some b ∧
      ∃ c ∈ b.cards, c.options = some ["option1", "option1", "option2", "option3"] ∧
        c.answer = "option1" ∧
        ¬ (["option1", "option1", "option2", "option3"] : List String).Nodup) := by
  constructor
  · exact ⟨_, rfl, by decide⟩
  · exact ⟨_, rfl, by decide⟩

/-- C2 (amended): in every batch of the local orchestrator, a card either
is a speed card and carries no options list, or carries exactly four
options (not necessarily distinct) among which its answer occurs. -/
theorem flashcard_options_amended (words : List WordData) (cfg : SessionConfig)
    (shuffle : Nat → List String → List String) (pick : Nat → Nat) (sid : String)
    (b : Batch) (hsh : ∀ j l, List.Perm (shuffle j l) l)
    (hb : aiGenerateFlashcards words cfg shuffle pick sid = some b) :
    ∀ c ∈ b.cards, (c.cardType = "speed" ∧ c.options = none) ∨
      ∃ opts, c.options = some opts ∧ opts.length = 4 ∧ c.answer ∈ opts := by
  obtain ⟨⟨cards, hmo, hcards⟩, _⟩ := aiGenerateFlashcards_inv hb
  intro c hc
  rw [hcards] at hc
  obtain ⟨x, _, hfx⟩ := mem_of_mapOpt hmo c hc
  exact aiCardFor_shape hsh hfx

/-- C2 (witness): the amended statement applied to a concrete classic
batch. -/
theorem flashcard_options_amended_witness :
    ∃ b, aiGenerateFlashcards cexWordsDup cexCfgDup idShuffle pickZero "s" = some b ∧
      ∀ c ∈ b.cards, (c.cardType = "speed" ∧ c.options = none) ∨
        ∃ opts, c.options = some opts ∧ opts.length = 4 ∧ c.answer ∈ opts := by
  refine ⟨_, rfl, ?_⟩
  exact flashcard_options_amended cexWordsDup cexCfgDup idShuffle pickZero "s" _
    (fun j l => List.Perm.refl l) rfl

/-- C3 (counterexample): the Groq normalization keeps the raw provider
difficulty mix (summing to zero against one card) and sets the estimated
time to fifteen seconds per card although the time limit of the card is twenty
seconds. -/
theorem metadata_recompute_counterexample :
    (groqNormalizeResult groqCexResult ["classic"] idShuffle).metadata.difficultyMix.easy +
        (groqNormalizeResult groqCexResult ["classic"] idShuffle).metadata.difficultyMix.medium +
        (groqNormalizeResult groqCexResult ["classic"] idShuffle).metadata.difficultyMix.hard ≠
      (groqNormalizeResult groqCexResult ["classic"] idShuffle).metadata.totalCards ∧
    (groqNormalizeResult groqCexResult ["classic"] idShuffle).metadata.estimatedTime ≠
      ((groqNormalizeResult groqCexResult ["classic"] idShuffle).cards.map
        RawCard.timeLimit).sum / 1000 := by
  constructor <;> decide

/-- C3 (amended): the local orchestrator recomputes all three aggregates
from the final card list; the Groq path recomputes only the card count,
fixes the estimated time at fifteen seconds per card, and trusts the raw
provider difficulty mix. -/
theorem metadata_recompute_amended (words : List WordData) (cfg : SessionConfig)
    (shuffle : Nat → List String → List String) (pick : Nat → Nat) (sid : String)
    (b : Batch) (hb : aiGenerateFlashcards words cfg shuffle pick sid = some b) :
    (b.metadata.difficultyMix.easy + b.metadata.difficultyMix.medium +
        b.metadata.difficultyMix.hard = b.metadata.totalCards ∧
      b.metadata.totalCards = b.cards.length ∧
      b.metadata.estimatedTime = (b.cards.map Card.timeLimit).sum / 1000) ∧
    (∀ (res : GroqResult) (types : List String) (sh : Nat → List String → List String),
      (groqNormalizeResult res types sh).metadata.totalCards =
          (groqNormalizeResult res types sh).cards.length ∧
        (groqNormalizeResult res types sh).metadata.estimatedTime = res.cards.length * 15 ∧
        (groqNormalizeResult res types sh).metadata.difficultyMix =
          res.metadata.difficultyMix) := by
  obtain ⟨_, ht, he, hm⟩ := aiGenerateFlashcards_inv hb
  refine ⟨⟨by rw [ht]; exact hm, ht, he⟩, ?_⟩
  intro res types sh
  refine ⟨?_, rfl, rfl⟩
  simp [groqNormalizeResult]

/-- C3 (witness): the amended statement applied to a concrete batch. -/
theorem metadata_recompute_amended_witness :
    ∃ b, aiGenerateFlashcards cexWordsSpeed cexCfgSpeed idShuffle pickZero "s" = some b ∧
      b.metadata.difficultyMix.easy + b.metadata.difficultyMix.medium +
          b.metadata.difficultyMix.hard = b.metadata.totalCards ∧
        b.metadata.totalCards = b.cards.length ∧
        b.metadata.estimatedTime = (b.cards.map Card.timeLimit).sum / 1000 := by
  refine ⟨_, rfl, ?_⟩
  exact (metadata_recompute_amended cexWordsSpeed cexCfgSpeed idShuffle pickZero "s" _ rfl).1

/-- C4 (counterexample): truncation to four options drops an answer
sitting at the fifth position, and a short options list containing a
placeholder-like entry on a non-contextual card is left at length two. -/
theorem options_padding_counterexample :
    (groqNormalizeCard ["classic"] idShuffle 0 rawCexTrunc).options =
        some [some "aa", some "bb", some "cc", some "dd"] ∧
      (groqNormalizeCard ["classic"] idShuffle 0 rawCexTrunc).answer = some "ee" ∧
      (some "ee" : Option String) ∉
        ([some "aa", some "bb", some "cc", some "dd"] : List (Option String)) ∧
      (groqNormalizeCard ["classic"] idShuffle 0 rawCexShort).options =
        some [some "aa", some "option zz"] := by
  refine ⟨rfl, rfl, by decide, rfl⟩

/-- C4 (amended): in the generic repair branch the options list is padded
or truncated to exactly four entries, existing entries keep their
positions, and an answer within the first four (fixed) entries survives —
but nothing protects an answer beyond the fourth position. -/
theorem options_padding_amended (opts : List (Option String)) :
    (fixOptionsGeneric opts).length = 4 ∧
      (∀ (j : Nat) (a : Option String), j < 4 → (fixOptionEntries opts).get? j = some a →
        (fixOptionsGeneric opts).get? j = some a) ∧
      (∀ a : Option String, a ∈ (fixOptionEntries opts).take 4 → a ∈ fixOptionsGeneric opts) := by
  have hplen : (padOptions (fixOptionEntries opts)).length =
      (fixOptionEntries opts).length + (4 - (fixOptionEntries opts).length) := by
    simp [padOptions]
  have hget : ∀ (j : Nat) (a : Option String), j < 4 →
      (fixOptionEntries opts).get? j = some a →
      (fixOptionsGeneric opts).get? j = some a := by
    intro j a hj ha
    have hjl : j < (fixOptionEntries opts).length := by
      by_contra hle
      rw [List.get?_eq_none.mpr (Nat.le_of_not_lt hle)] at ha
      cases ha
    rw [fixOptionsGeneric, List.get?_take hj, padOptions, List.get?_append hjl, ha]
  refine ⟨?_, hget, ?_⟩
  · rw [fixOptionsGeneric, List.length_take, hplen]
    omega
  · intro a ha
    obtain ⟨j, hj⟩ := List.get?_of_mem ha
    have hj4 : j < 4 := by
      by_contra hge
      rw [List.get?_eq_none.mpr] at hj
      · cases hj
      · calc (List.take 4 (fixOptionEntries opts)).length ≤ 4 := by
              simp [List.length_take]
          _ ≤ j := Nat.le_of_not_lt hge
    rw [List.get?_take hj4] at hj
    exact List.get?_mem (hget j a hj4 hj)

/-- C4 (witness): the amended statement applied to a two-entry list. -/
theorem options_padding_amended_witness :
    (fixOptionsGeneric [some "aa", some "bb"]).length = 4 ∧
      (fixOptionsGeneric [some "aa", some "bb"]).get? 0 = some (some "aa") ∧
      some "aa" ∈ fixOptionsGeneric [some "aa", some "bb"] := by
  obtain ⟨h1, h2, h3⟩ := options_padding_amended [some "aa", some "bb"]
  exact ⟨h1, h2 0 (some "aa") (by decide) (by decide), h3 (some "aa") (by decide)⟩

/-- C5 (counterexample): for a non-premium caller the selector returns
the premium type `audio` on mastery `MASTERED`, and for `NEW` with only
`contextual` available it does not return `classic`. -/
theorem card_type_selection_counterexample :
    selectCardType "MASTERED" ["classic", "contextual", "audio", "speed"] false =
        some "audio" ∧
      ("audio" : String) ≠ "classic" ∧ ("audio" : String) ≠ "contextual" ∧
      selectCardType "NEW" ["contextual"] true = some "contextual" ∧
      (some "contextual" : Option String) ≠ some "classic" := by
  refine ⟨rfl, by decide, by decide, rfl, by decide⟩

/-- C5 (amended): the type actually delivered is downgraded in the
orchestrator: a non-premium batch only ever contains classic or
contextual cards, even when selection returned a premium type. -/
theorem premium_downgrade_amended (words : List WordData) (cfg : SessionConfig)
    (shuffle : Nat → List String → List String) (pick : Nat → Nat) (sid : String)
    (b : Batch) (hprem : cfg.isPremium = false)
    (hb : aiGenerateFlashcards words cfg shuffle pick sid = some b) :
    ∀ c ∈ b.cards, c.cardType = "classic" ∨ c.cardType = "contextual" := by
  obtain ⟨⟨cards, hmo, hcards⟩, _⟩ := aiGenerateFlashcards_inv hb
  intro c hc
  rw [hcards] at hc
  obtain ⟨x, _, hfx⟩ := mem_of_mapOpt hmo c hc
  exact aiCardFor_type_nonpremium hprem hfx

/-- C5 (witness): a non-premium mastered word with all four types offered
yields a classic card (the audio selection is downgraded). -/
theorem premium_downgrade_witness :
    ∃ b, aiGenerateFlashcards cexWordsDowngrade cexCfgDowngrade idShuffle pickZero "s" =
        some b ∧
      (∀ c ∈ b.cards, c.cardType = "classic" ∨ c.cardType = "contextual") ∧
      b.cards.map Card.cardType = ["classic"] := by
  refine ⟨_, rfl, ?_, rfl⟩
  exact premium_downgrade_amended cexWordsDowngrade cexCfgDowngrade idShuffle pickZero "s" _
    rfl rfl

/-- C7 (counterexample): with weak areas present, low accuracy and a high
mastered ratio, the returned priorities are `[medium, high]`: the list is
not ordered high before medium before low. -/
theorem recommendations_order_counterexample :
    (generateRecommendations recsCexProgress).map (fun r => r.priority) =
        ["medium", "high"] ∧
      ranksSorted ((generateRecommendations recsCexProgress).map
        (fun r => priorityRank r.priority)) = false := by
  have h1 : recsCexProgress.averageAccuracy < 7/10 := by
    norm_num [recsCexProgress]
  have h2 : ¬(0 < recsCexProgress.totalWords ∧
      (recsCexProgress.masteredWords : Rat) / (recsCexProgress.totalWords : Rat) < 1/2) := by
    norm_num [recsCexProgress]
  have h3 : recsCexProgress.weakAreas ≠ [] := by
    simp [recsCexProgress]
  constructor <;>
    (simp only [generateRecommendations, h1, h3, ite_true, ite_false, ne_eq,
      not_true_eq_false, not_false_eq_true, if_true, if_false]
     rw [if_neg h2]
     simp [ranksSorted, priorityRank])

/-- C7 (amended): accuracy below 0.7 guarantees a high-priority entry,
a mastered ratio below 0.5 (with a positive total) guarantees the
"spend more time reviewing" entry, and the list is capped at three — but
no ordering by priority is guaranteed. -/
theorem recommendations_amended (p : UserProgress) :
    (p.averageAccuracy < 7/10 →
      ∃ r ∈ generateRecommendations p, r.priority = "high") ∧
      (0 < p.totalWords → (p.masteredWords : Rat) / (p.totalWords : Rat) < 1/2 →
        ∃ r ∈ generateRecommendations p,
          r.content = "Spend more time reviewing learned words to improve retention") ∧
      (generateRecommendations p).length ≤ 3 := by
  refine ⟨?_, ?_, ?_⟩
  · intro hacc
    by_cases hW : p.weakAreas = []
    · by_cases hM : 0 < p.totalWords ∧ (p.masteredWords : Rat) / (p.totalWords : Rat) < 1/2
      · simp only [generateRecommendations, hacc, hW, ite_true, ite_false, ne_eq,
          not_true_eq_false, if_true, if_false, List.nil_append]
        rw [if_pos hM]
        simp
      · simp only [generateRecommendations, hacc, hW, ite_true, ite_false, ne_eq,
          not_true_eq_false, if_true, if_false, List.nil_append]
        rw [if_neg hM]
        simp
    · by_cases hM : 0 < p.totalWords ∧ (p.masteredWords : Rat) / (p.totalWords : Rat) < 1/2
      · simp only [generateRecommendations, hacc, hW, ite_true, ite_false, ne_eq,
          not_false_eq_true, if_true, if_false]
        rw [if_pos hM]
        simp
      · simp only [generateRecommendations, hacc, hW, ite_true, ite_false, ne_eq,
          not_false_eq_true, if_true, if_false]
        rw [if_neg hM]
        simp
  · intro htot hrat
    have hM : 0 < p.totalWords ∧ (p.masteredWords : Rat) / (p.totalWords : Rat) < 1/2 :=
      ⟨htot, hrat⟩
    by_cases hW : p.weakAreas = []
    · by_cases hA : p.averageAccuracy < 7/10
      · simp only [generateRecommendations, hA, hW, ite_true, ite_false, ne_eq,
          not_true_eq_false, if_true, if_false, List.nil_append]
        rw [if_pos hM]
        simp
      · simp only [generateRecommendations, hA, hW, ite_true, ite_false, ne_eq,
          not_true_eq_false, if_true, if_false, List.nil_append]
        rw [if_pos hM]
        simp
    · by_cases hA : p.averageAccuracy < 7/10
      · simp only [generateRecommendations, hA, hW, ite_true, ite_false, ne_eq,
          not_false_eq_true, if_true, if_false]
        rw [if_pos hM]
        simp
      · simp only [generateRecommendations, hA, hW, ite_true, ite_false, ne_eq,
          not_false_eq_true, if_true, if_false]
        rw [if_pos hM]
        simp
  · simp only [generateRecommendations]
    rw [List.length_take]
    exact Nat.min_le_left _ _

/-- C7 (witness): the amended statement applied to a snapshot with
accuracy one half and fifteen of fifty words mastered. -/
theorem recommendations_amended_witness :
    (∃ r ∈ generateRecommendations recsWitnessProgress, r.priority = "high") ∧
      (∃ r ∈ generateRecommendations recsWitnessProgress,
        r.content = "Spend more time reviewing learned words to improve retention") ∧
      (generateRecommendations recsWitnessProgress).length ≤ 3 := by
  obtain ⟨h1, h2, h3⟩ := recommendations_amended recsWitnessProgress
  refine ⟨h1 (by norm_num [recsWitnessProgress]), ?_, h3⟩
  exact h2 (by norm_num [recsWitnessProgress]) (by norm_num [recsWitnessProgress])

/-- C9: for a non-premium caller whose available types contain neither
`classic` nor `contextual`, the premium filter empties the list and
selection for `NEW` or `LEARNING` indexes the empty list (`IndexError`),
so the whole flashcard generation call crashes instead of degrading. -/
theorem select_card_type_crash (types : List String)
    (h : ∀ t ∈ types, t ≠ "classic" ∧ t ≠ "contextual")
    (w : WordData)
    (hw : w.masteryLevel.getD "NEW" = "NEW" ∨ w.masteryLevel.getD "NEW" = "LEARNING")
    (ws : List WordData) (lvl : String) (k : Nat)
    (shuffle : Nat → List String → List String) (pick : Nat → Nat) (sid : String) :
    selectCardType "NEW" types false = none ∧
      selectCardType "LEARNING" types false = none ∧
      aiGenerateFlashcards (w :: ws)
        { types := types, userLevel := lvl, isPremium := false, count := k + 1 }
        shuffle pick sid = none := by
  have hfil : types.filter (fun t => t == "classic" || t == "contextual") = [] := by
    rw [List.filter_eq_nil]
    intro t ht
    rcases h t ht with ⟨h1, h2⟩
    simp [h1, h2]
  have hnew : selectCardType "NEW" types false = none := by
    simp [selectCardType, hfil]
  have hlearn : selectCardType "LEARNING" types false = none := by
    simp [selectCardType, hfil]
  refine ⟨hnew, hlearn, ?_⟩
  unfold aiGenerateFlashcards
  dsimp only
  rw [List.take_succ_cons, List.enum_cons]
  have hcf : aiCardFor
      { types := types, userLevel := lvl, isPremium := false, count := k + 1 }
      shuffle pick 0 w = none := by
    unfold aiCardFor
    rcases hw with hw | hw <;> rw [hw] <;> dsimp only <;>
      first
        | rw [hnew]; rfl
        | rw [hlearn]; rfl
  simp [mapOpt, hcf]

/-- C9 (witness): the crash statement applied to a non-premium call with
only `audio` and `speed` offered and a new word. -/
theorem select_card_type_crash_witness :
    selectCardType "NEW" ["audio", "speed"] false = none ∧
      selectCardType "LEARNING" ["audio", "speed"] false = none ∧
      aiGenerateFlashcards [{ text := "dog", masteryLevel := some "NEW" }]
        { types := ["audio", "speed"], userLevel := "A2", isPremium := false, count := 1 }
        idShuffle pickZero "s" = none := by
  exact select_card_type_crash ["audio", "speed"] (by decide)
    { text := "dog", masteryLevel := some "NEW" } (Or.inl rfl) [] "A2" 0 idShuffle pickZero "s"

/-- C10: when the word occurs in the context only with different
letter-case, the membership test passes but `str.replace` finds nothing:
the fill-in-blank card keeps the context unchanged, inserts no blank, and
the question still exhibits the answer word (up to case). -/
theorem contextual_case_sensitivity (txt ctx cid lvl : String) (choice : Nat)
    (sh : List String → List String)
    (hchoice : choice % 3 = 0)
    (hlow : pyInStr (pyLower txt) (pyLower ctx) = true)
    (hexact : pyInStr txt ctx = false)
    (hnou : ('_' : Char) ∉ ctx.data) :
    (genContextualCard { text := txt, context := some ctx } cid lvl choice sh).context =
        some ctx ∧
      (genContextualCard { text := txt, context := some ctx } cid lvl choice sh).question =
        "Complétez la phrase : \x27" ++ ctx ++ "\x27" ∧
      pyInStr "_____"
        (genContextualCard { text := txt, context := some ctx } cid lvl choice sh).question =
        false ∧
      pyInStr (pyLower txt)
        (pyLower (genContextualCard { text := txt, context := some ctx } cid lvl
          choice sh).question) = true ∧
      (genContextualCard { text := txt, context := some ctx } cid lvl choice sh).answer =
        txt := by
  have hrep : pyReplaceFirst ctx txt "_____" = ctx := by
    unfold pyReplaceFirst
    rw [replaceFirst_of_not_sub _ hexact]
  have hbc : contextualBlank { text := txt, context := some ctx } = (ctx, ctx) := by
    unfold contextualBlank
    simp only [Option.getD_some]
    rw [if_pos hlow, hrep]
  have hst : (["fill_in_blank", "context_completion", "situation_match"]).getD
      (choice % 3) "" = "fill_in_blank" := by
    rw [hchoice]
    rfl
  have hq : (genContextualCard { text := txt, context := some ctx } cid lvl choice sh).question =
      "Complétez la phrase : \x27" ++ ctx ++ "\x27" := by
    unfold genContextualCard
    rw [hbc, hst]
    rfl
  have hctx : (genContextualCard { text := txt, context := some ctx } cid lvl choice sh).context =
      some ctx := by
    unfold genContextualCard
    rw [hbc]
  have hans : (genContextualCard { text := txt, context := some ctx } cid lvl choice sh).answer =
      txt := by
    unfold genContextualCard
    rw [hbc, hst]
    rfl
  refine ⟨hctx, hq, ?_, ?_, hans⟩
  · rw [hq]
    apply isSub_false_of_missing (c := '_')
    · decide
    · intro hmem
      rw [String.data_append, String.data_append] at hmem
      rcases List.mem_append.mp hmem with hmem | hmem
      · rcases List.mem_append.mp hmem with hmem | hmem
        · exact absurd hmem (by decide)
        · exact absurd hmem hnou
      · exact absurd hmem (by decide)
  · rw [hq]
    show isSub (pyLower txt).data (pyLower ("Complétez la phrase : \x27" ++ ctx ++ "\x27")).data
      = true
    have hdata : (pyLower ("Complétez la phrase : \x27" ++ ctx ++ "\x27")).data =
        ("Complétez la phrase : \x27".data.map Char.toLower) ++
          ((ctx.data.map Char.toLower) ++ ("\x27".data.map Char.toLower)) := by
      simp [pyLower, String.data_append]
    rw [hdata]
    apply isSub_append_left
    apply isSub_append_right
    exact hlow

/-- C10 (witness): the case-sensitivity statement applied to the word
`Hello` with context `hello world`. -/
theorem contextual_case_sensitivity_witness :
    (genContextualCard { text := "Hello", context := some "hello world" } "card_1" "A2" 0
        idShuffleOne).context = some "hello world" ∧
      (genContextualCard { text := "Hello", context := some "hello world" } "card_1" "A2" 0
        idShuffleOne).question = "Complétez la phrase : \x27hello world\x27" ∧
      pyInStr "_____"
        (genContextualCard { text := "Hello", context := some "hello world" } "card_1" "A2" 0
          idShuffleOne).question = false ∧
      pyInStr (pyLower "Hello")
        (pyLower (genContextualCard { text := "Hello", context := some "hello world" }
          "card_1" "A2" 0 idShuffleOne).question) = true ∧
      (genContextualCard { text := "Hello", context := some "hello world" } "card_1" "A2" 0
        idShuffleOne).answer = "Hello" := by
  exact contextual_case_sensitivity "Hello" "hello world" "card_1" "A2" 0 idShuffleOne
    (by decide) (by decide) (by decide) (by decide)

end LangBackend
